import Mathlib

/-!
Pong frame loop: ball, paddles and the Config/Playing state machine.

A shallow embedding of `src/main.cpp`.

* The program computes in the C++ type `float`.  Every definition of the program below is
  written once, over a type `α` of scalars with `+`, `-`, `*`, `<`, the conversion of an `int`
  (`Scalar.ofInt`) and the division by two (`Scalar.half`), in the order and grouping of the
  source.  Two arithmetics instantiate it: `F32`, the IEEE binary32 numbers with
  round-to-nearest-even after every operation, overflow to the infinities, and NaN (what the
  compiled program computes when each `float` operation is rounded to `float`), and `ℚ`,
  exact arithmetic.  Each theorem says which arithmetic it is about; a theorem stated for
  every `α` holds in both.
* `size_t` score counters are naturals below `2 ^ 64` (a 64-bit target), `++` wraps modulo
  `2 ^ 64`.
* The collaborators of the frame loop are inputs: the key queries and the two
  `GetRandomValue` results of a frame are fields of `FrameInput`,
  `CheckCollisionCircleRec` is a function parameter, the `playSound` requests of a
  frame are returned as a list of sound names.  Drawing calls have no effect on
  the simulated state and are left out.
-/

namespace Pong

/-- What the program needs of its scalars besides `+`, `-`, `*` and `<`: the conversion of
an `int` to the scalar type and the division by the literal `2` (the only division in the
program). -/
class Scalar (α : Type) where
  ofInt : Int → α
  half : α → α

/-- Exact arithmetic. -/
instance instScalarRat : Scalar ℚ where
  ofInt := fun n => (n : ℚ)
  half := fun x => x / 2

/-- The values of an IEEE binary32 `float`: finite numbers (as rationals; the two zeros are
not told apart, the program never divides by a zero and never reads a sign bit), the two
infinities and NaN.  The operations below round every finite result to binary32, so every
value computed from binary32 numbers is one. -/
inductive F32 where
  | fin (q : ℚ)
  | pinf
  | ninf
  | nan
  deriving DecidableEq, Repr

namespace F32

/-- The power `2 ^ k` of two, for an integer exponent. -/
def pow2 (k : ℤ) : ℚ :=
  if 0 ≤ k then ((2 ^ k.toNat : ℕ) : ℚ) else 1 / ((2 ^ (-k).toNat : ℕ) : ℚ)

/-- Search upwards from `e` for the first exponent whose successor power of two exceeds
`a`, giving up after `fuel` steps. -/
def scanExpo (a : ℚ) : Nat → ℤ → ℤ
  | 0, e => e
  | fuel + 1, e => if pow2 (e + 1) ≤ a then scanExpo a fuel (e + 1) else e

/-- The binary exponent of `q` as binary32 sees it: the `e` with `2 ^ e ≤ |q| < 2 ^ (e + 1)`,
kept between the smallest normal exponent `-126` and `128` (where every number overflows). -/
def expo (q : ℚ) : ℤ := scanExpo |q| 254 (-126)

/-- The nearest integer, ties to even. -/
def rne (x : ℚ) : ℤ :=
  if x - ⌊x⌋ < 1 / 2 then ⌊x⌋
  else if 1 / 2 < x - ⌊x⌋ then ⌊x⌋ + 1
  else if ⌊x⌋ % 2 = 0 then ⌊x⌋
  else ⌊x⌋ + 1

/-- The spacing of the binary32 numbers around `q`: 24 significant bits. -/
def ulp (q : ℚ) : ℚ := pow2 (expo q - 23)

/-- Rounding of an exact result to binary32, round-to-nearest-even, overflow to infinity. -/
def round (q : ℚ) : F32 :=
  if q = 0 then fin 0
  else if pow2 128 ≤ |(rne (q / ulp q) : ℚ) * ulp q| then
    (if 0 < q then pinf else ninf)
  else fin ((rne (q / ulp q) : ℚ) * ulp q)

/-- Negation. -/
def neg : F32 → F32
  | fin q => fin (-q)
  | pinf => ninf
  | ninf => pinf
  | nan => nan

/-- Addition of binary32 numbers. -/
def add : F32 → F32 → F32
  | fin a, fin b => round (a + b)
  | fin _, pinf => pinf
  | fin _, ninf => ninf
  | pinf, fin _ => pinf
  | pinf, pinf => pinf
  | ninf, fin _ => ninf
  | ninf, ninf => ninf
  | _, _ => nan

/-- Subtraction of binary32 numbers. -/
def sub (a b : F32) : F32 := add a (neg b)

/-- Multiplication of binary32 numbers. -/
def mul : F32 → F32 → F32
  | fin a, fin b => round (a * b)
  | fin a, pinf => if a = 0 then nan else if 0 < a then pinf else ninf
  | fin a, ninf => if a = 0 then nan else if 0 < a then ninf else pinf
  | pinf, fin b => if b = 0 then nan else if 0 < b then pinf else ninf
  | ninf, fin b => if b = 0 then nan else if 0 < b then ninf else pinf
  | pinf, pinf => pinf
  | pinf, ninf => ninf
  | ninf, pinf => ninf
  | ninf, ninf => pinf
  | _, _ => nan

/-- Division by `2`. -/
def half : F32 → F32
  | fin a => round (a / 2)
  | x => x

/-- The comparison `<` of binary32 numbers; false as soon as one side is NaN. -/
def lt : F32 → F32 → Bool
  | fin a, fin b => decide (a < b)
  | fin _, pinf => true
  | ninf, fin _ => true
  | ninf, pinf => true
  | _, _ => false

/-- The comparison `<=` of binary32 numbers; false as soon as one side is NaN. -/
def le : F32 → F32 → Bool
  | fin a, fin b => decide (a ≤ b)
  | fin _, pinf => true
  | ninf, fin _ => true
  | ninf, pinf => true
  | pinf, pinf => true
  | ninf, ninf => true
  | _, _ => false

end F32

instance instAddF32 : Add F32 := ⟨F32.add⟩

instance instSubF32 : Sub F32 := ⟨F32.sub⟩

instance instMulF32 : Mul F32 := ⟨F32.mul⟩

instance instLTF32 : LT F32 := ⟨fun a b => F32.lt a b = true⟩

instance instLEF32 : LE F32 := ⟨fun a b => F32.le a b = true⟩

instance instDecidableLtF32 (a b : F32) : Decidable (a < b) :=
  inferInstanceAs (Decidable (F32.lt a b = true))

instance instDecidableLeF32 (a b : F32) : Decidable (a ≤ b) :=
  inferInstanceAs (Decidable (F32.le a b = true))

/-- The arithmetic of `float`. -/
instance instScalarF32 : Scalar F32 where
  ofInt := fun n => F32.round (n : ℚ)
  half := F32.half

section Model

variable {α : Type} [Add α] [Sub α] [Mul α] [LT α] [DecidableRel ((· < ·) : α → α → Prop)]
  [Scalar α]

/-- The `Color` of raylib: four 8-bit channels. -/
structure Color where
  r : Nat
  g : Nat
  b : Nat
  a : Nat
  deriving DecidableEq, Repr

/-- The raylib constant `WHITE`. -/
def WHITE : Color := ⟨255, 255, 255, 255⟩

/-- The `Rectangle` of raylib: top-left corner, width, height. -/
structure Rectangle (α : Type) where
  x : α
  y : α
  width : α
  height : α
  deriving DecidableEq, Repr

/-- The `Vector2` of raylib. -/
structure Vector2 (α : Type) where
  x : α
  y : α
  deriving DecidableEq, Repr

/-- The `enum class ScreenState`. -/
inductive ScreenState where
  | Config
  | Playing
  deriving DecidableEq, Repr

/-- The `struct GameState`, with its default member initialisers as `initial`. -/
structure GameState where
  cpuScore : Nat
  playerScore : Nat
  screenState : ScreenState
  deriving DecidableEq, Repr

/-- The number of values of a `size_t` counter. -/
def sizeModulus : Nat := 2 ^ 64

/-- The `++` of a `size_t`. -/
def sizeIncr (n : Nat) : Nat := (n + 1) % sizeModulus

/-- A default-constructed `GameState`. -/
def GameState.initial : GameState := ⟨0, 0, ScreenState.Config⟩

/-- The function `std::max` on scalars: `(a < b) ? b : a`. -/
def stdMax (a b : α) : α := if a < b then b else a

/-- The data members of `class Paddle`. -/
structure Paddle (α : Type) where
  x_ : α
  y_ : α
  width_ : α
  height_ : α
  color_ : Color
  speed_ : α
  deriving DecidableEq, Repr

/-- The constructor `Paddle(x, y, width, height, color)`; `speed_` takes its default `10`. -/
def Paddle.new (x y width height : α) (color : Color) : Paddle α :=
  ⟨x, y, width, height, color, Scalar.ofInt 10⟩

/-- The method `Paddle::canMoveUp`. -/
def Paddle.canMoveUp (p : Paddle α) (yMin : α) : Bool :=
  decide (p.y_ > yMin)

/-- The method `Paddle::canMoveDown`. -/
def Paddle.canMoveDown (p : Paddle α) (yMax : α) : Bool :=
  decide (p.y_ + p.height_ < yMax)

/-- The method `Paddle::getRect`. -/
def Paddle.getRect (p : Paddle α) : Rectangle α := ⟨p.x_, p.y_, p.width_, p.height_⟩

/-- The method `Paddle::setSpeed`. -/
def Paddle.setSpeed (p : Paddle α) (speed : α) : Paddle α := { p with speed_ := speed }

/-- The `enum class Ball::CollisionType`. -/
inductive CollisionType where
  | None
  | Left
  | Right
  | TopOrBottom
  deriving DecidableEq, Repr

/-- The data members of `class Ball`. -/
structure Ball (α : Type) where
  x_ : α
  y_ : α
  radius_ : α
  color_ : Color
  speed_ : Vector2 α
  deriving DecidableEq, Repr

/-- The constructor `Ball(x, y, radius, color)`; `speed_` takes its default `{10, 10}`. -/
def Ball.new (x y radius : α) (color : Color) : Ball α :=
  ⟨x, y, radius, color, ⟨Scalar.ofInt 10, Scalar.ofInt 10⟩⟩

/-- The method `Ball::reverseX`. -/
def Ball.reverseX (b : Ball α) : Ball α :=
  { b with speed_ := ⟨b.speed_.x * Scalar.ofInt (-1), b.speed_.y⟩ }

/-- The method `Ball::reverseY`. -/
def Ball.reverseY (b : Ball α) : Ball α :=
  { b with speed_ := ⟨b.speed_.x, b.speed_.y * Scalar.ofInt (-1)⟩ }

/-- The method `Ball::setSpeed`. -/
def Ball.setSpeed (b : Ball α) (speed : Vector2 α) : Ball α := { b with speed_ := speed }

/-- The method `Ball::getPos`. -/
def Ball.getPos (b : Ball α) : Vector2 α := ⟨b.x_, b.y_⟩

/-- The method `Ball::update`: the classification it returns and the ball it leaves. -/
def Ball.update (b : Ball α) (rect : Rectangle α) (lineThick : α) : CollisionType × Ball α :=
  let newX := b.x_ + b.speed_.x
  let newY := b.y_ + b.speed_.y
  if newX - b.radius_ < rect.x + lineThick then
    (CollisionType.Left, b)
  else if newX + b.radius_ > rect.x + rect.width - lineThick then
    (CollisionType.Right, b)
  else if newY - b.radius_ < rect.y + lineThick
      ∨ newY + b.radius_ > rect.y + rect.height - lineThick then
    (CollisionType.TopOrBottom, b.reverseY)
  else
    (CollisionType.None, { b with x_ := newX, y_ := newY })

/-- The ball after `n` consecutive calls of `Ball::update` with the same arguments. -/
def Ball.updateN (rect : Rectangle α) (lineThick : α) : Nat → Ball α → Ball α
  | 0, b => b
  | n + 1, b => Ball.updateN rect lineThick n (b.update rect lineThick).2

/-- The method `PlayerPaddle::updatePosition`; `keyDown` and `keyUp` are the results of
`IsKeyDown(KEY_DOWN)` and `IsKeyDown(KEY_UP)`. -/
def PlayerPaddle.updatePosition (keyDown keyUp : Bool) (p : Paddle α) (yMin yMax : α) :
    Paddle α :=
  let p1 := if keyDown && p.canMoveDown yMax then { p with y_ := p.y_ + p.speed_ } else p
  if keyUp && p1.canMoveUp yMin then { p1 with y_ := p1.y_ - p1.speed_ } else p1

/-- The method `CpuPaddle::updatePosition`. -/
def CpuPaddle.updatePosition (p : Paddle α) (ballY yMin yMax : α) : Paddle α :=
  if decide (p.y_ + Scalar.half p.height_ < ballY) && p.canMoveDown yMax then
    { p with y_ := p.y_ + p.speed_ }
  else if decide (p.y_ + Scalar.half p.height_ > ballY) && p.canMoveUp yMin then
    { p with y_ := p.y_ - p.speed_ }
  else
    p

/-- The `struct ConfigOptions`. -/
structure ConfigOptions (α : Type) where
  screenWidth : α
  screenHeight : α
  containerMarginX : α
  containerMarginY : α
  containerThick : α
  paddleSpeed : α
  ballSpeed : α
  deriving DecidableEq, Repr

/-- A default-constructed `ConfigOptions`. -/
def ConfigOptions.default : ConfigOptions α :=
  ⟨Scalar.ofInt 800, Scalar.ofInt 600, Scalar.ofInt 10, Scalar.ofInt 10, Scalar.ofInt 10,
    Scalar.ofInt 7, Scalar.ofInt 5⟩

/-- The function `resetBall`; `randX` and `randY` are the two `GetRandomValue(-100, 150)`
results, in call order. -/
def resetBall (config : ConfigOptions α) (randX randY : Int) : Ball α :=
  Ball.new (Scalar.half config.screenWidth + Scalar.ofInt randX)
    (Scalar.half config.screenHeight + Scalar.ofInt randY) (Scalar.ofInt 10) WHITE

/-- What one iteration of the main loop reads from its collaborators: the `IsKeyPressed`
edges, the `IsKeyDown` levels and the two `GetRandomValue(-100, 150)` results that
`resetBall` would draw in that iteration. -/
structure FrameInput where
  pressedUp : Bool
  pressedDown : Bool
  pressedLeft : Bool
  pressedRight : Bool
  pressedEnter : Bool
  downDown : Bool
  downUp : Bool
  randX : Int
  randY : Int
  deriving DecidableEq, Repr

/-- The local variables of `main` that live across iterations of the main loop. -/
structure World (α : Type) where
  config : ConfigOptions α
  container : Rectangle α
  colorIndex : Nat
  playerPaddle : Paddle α
  cpuPaddle : Paddle α
  ball : Ball α
  gameState : GameState
  deriving DecidableEq, Repr

/-- The rectangle `container` that `main` builds from the configuration. -/
def containerOf (config : ConfigOptions α) : Rectangle α :=
  ⟨config.containerMarginX, config.containerMarginY,
    config.screenWidth - Scalar.ofInt 2 * config.containerMarginX,
    config.screenHeight - Scalar.ofInt 2 * config.containerMarginY⟩

/-- The state of `main` when the main loop is entered. -/
def World.initial : World α :=
  let config : ConfigOptions α := ConfigOptions.default
  { config := config
    container := containerOf config
    colorIndex := 0
    playerPaddle := Paddle.new (Scalar.ofInt 50) (Scalar.half config.screenHeight - Scalar.ofInt 50)
      (Scalar.ofInt 10) (Scalar.ofInt 100) WHITE
    cpuPaddle := Paddle.new (config.screenWidth - Scalar.ofInt 60)
      (Scalar.half config.screenHeight - Scalar.ofInt 50) (Scalar.ofInt 10) (Scalar.ofInt 100) WHITE
    ball := Ball.new (Scalar.half config.screenWidth) (Scalar.half config.screenHeight)
      (Scalar.ofInt 10) WHITE
    gameState := GameState.initial }

/-- The speed adjustments of the `Config` branch, in source order. -/
def adjustConfig (inp : FrameInput) (config : ConfigOptions α) : ConfigOptions α :=
  let c1 := if inp.pressedUp then
      { config with paddleSpeed := config.paddleSpeed + Scalar.ofInt 1 } else config
  let c2 := if inp.pressedDown then
      { c1 with paddleSpeed := stdMax (Scalar.ofInt 1) (c1.paddleSpeed - Scalar.ofInt 1) } else c1
  let c3 := if inp.pressedLeft then
      { c2 with ballSpeed := stdMax (Scalar.ofInt 1) (c2.ballSpeed - Scalar.ofInt 1) } else c2
  if inp.pressedRight then { c3 with ballSpeed := c3.ballSpeed + Scalar.ofInt 1 } else c3

/-- The `Config` branch of the main loop. -/
def configFrame (inp : FrameInput) (w : World α) : World α :=
  let config := adjustConfig inp w.config
  if inp.pressedEnter then
    { w with
      config := config
      ball := w.ball.setSpeed ⟨config.ballSpeed, config.ballSpeed⟩
      playerPaddle := w.playerPaddle.setSpeed config.paddleSpeed
      cpuPaddle := w.cpuPaddle.setSpeed config.paddleSpeed
      gameState := { w.gameState with screenState := ScreenState.Playing } }
  else
    { w with config := config }

/-- The `switch (ballCollision)` of the `Playing` branch: game state, ball, colour index and
the sounds requested. -/
def resolveCollision (inp : FrameInput) (config : ConfigOptions α) (c : CollisionType)
    (g : GameState) (ball : Ball α) (colorIndex : Nat) :
    GameState × Ball α × Nat × List String :=
  match c with
  | CollisionType.Left =>
      ({ g with screenState := ScreenState.Config, cpuScore := sizeIncr g.cpuScore },
        resetBall config inp.randX inp.randY, colorIndex, ["gameover"])
  | CollisionType.Right =>
      ({ g with screenState := ScreenState.Config, playerScore := sizeIncr g.playerScore },
        resetBall config inp.randX inp.randY, colorIndex, ["yay"])
  | CollisionType.TopOrBottom =>
      (g, ball, (colorIndex + 1) % 21, ["bounce"])
  | CollisionType.None =>
      (g, ball, colorIndex, [])

/-- The `Playing` branch of the main loop; `check` is `CheckCollisionCircleRec`. The second
component lists the sounds requested, in order. -/
def playingFrame (check : Vector2 α → α → Rectangle α → Bool) (inp : FrameInput) (w : World α) :
    World α × List String :=
  let upd := w.ball.update w.container w.config.containerThick
  let res := resolveCollision inp w.config upd.1 w.gameState upd.2 w.colorIndex
  let gameState := res.1
  let ball := res.2.1
  let colorIndex := res.2.2.1
  let sounds := res.2.2.2
  let yMin := w.container.y + w.config.containerThick
  let yMax := w.container.y + w.container.height - w.config.containerThick
  let playerPaddle := PlayerPaddle.updatePosition inp.downDown inp.downUp w.playerPaddle yMin yMax
  let cpuPaddle := CpuPaddle.updatePosition w.cpuPaddle ball.y_ yMin yMax
  let playerCollision := check ball.getPos ball.radius_ playerPaddle.getRect
  let cpuCollision := check ball.getPos ball.radius_ cpuPaddle.getRect
  if playerCollision || cpuCollision then
    ({ w with gameState := gameState, ball := ball.reverseX, colorIndex := colorIndex,
              playerPaddle := playerPaddle, cpuPaddle := cpuPaddle },
      sounds ++ ["paddleclick"])
  else
    ({ w with gameState := gameState, ball := ball, colorIndex := colorIndex,
              playerPaddle := playerPaddle, cpuPaddle := cpuPaddle },
      sounds)

/-- One iteration of the main loop. -/
def frame (check : Vector2 α → α → Rectangle α → Bool) (inp : FrameInput) (w : World α) :
    World α × List String :=
  match w.gameState.screenState with
  | ScreenState.Config => (configFrame inp w, [])
  | ScreenState.Playing => playingFrame check inp w

/-- The state after the main loop has run one iteration per element of `inputs`. -/
def run (check : Vector2 α → α → Rectangle α → Bool) : List FrameInput → World α → World α
  | [], w => w
  | inp :: rest, w => run check rest (frame check inp w).1

end Model

end Pong

namespace Pong

section Theorems

variable {α : Type} [Add α] [Sub α] [Mul α] [LT α] [DecidableRel ((· < ·) : α → α → Prop)]
  [Scalar α]

set_option linter.unusedSectionVars false

/-! ## The two arithmetics -/

theorem Scalar.ofInt_rat (n : ℤ) : (Scalar.ofInt n : ℚ) = (n : ℚ) := rfl

theorem Scalar.half_rat (x : ℚ) : (Scalar.half x : ℚ) = x / 2 := rfl

theorem stdMax_rat (a b : ℚ) : stdMax a b = max a b := by
  unfold stdMax
  split_ifs with h
  · exact (max_eq_right h.le).symm
  · exact (max_eq_left (not_lt.mp h)).symm

theorem F32.lt_not_gt (a b : F32) (h : a < b) : ¬ b < a := by
  intro h2
  cases a <;> cases b <;>
    first
    | exact absurd h Bool.false_ne_true
    | exact absurd h2 Bool.false_ne_true
    | exact lt_asymm (of_decide_eq_true h) (of_decide_eq_true h2)

/-! ## Rounding does not go below one -/

theorem F32.pow2_eq (k : ℤ) : F32.pow2 k = (2 : ℚ) ^ k := by
  unfold F32.pow2
  split_ifs with h
  · have h1 : ((k.toNat : ℤ)) = k := Int.toNat_of_nonneg h
    rw [Nat.cast_pow, Nat.cast_ofNat, ← zpow_natCast, h1]
  · have h0 : 0 ≤ -k := by omega
    have h1 : (((-k).toNat : ℤ)) = -k := Int.toNat_of_nonneg h0
    rw [Nat.cast_pow, Nat.cast_ofNat, ← zpow_natCast, h1, zpow_neg, one_div, inv_inv]

theorem F32.pow2_pos (k : ℤ) : 0 < F32.pow2 k := by
  rw [F32.pow2_eq]
  positivity

theorem F32.pow2_mono {j k : ℤ} (h : j ≤ k) : F32.pow2 j ≤ F32.pow2 k := by
  rw [F32.pow2_eq, F32.pow2_eq]
  exact zpow_le_zpow_right₀ (by norm_num) h

theorem F32.le_scanExpo (a : ℚ) (fuel : Nat) (e : ℤ) : e ≤ F32.scanExpo a fuel e := by
  induction fuel generalizing e with
  | zero => exact le_refl e
  | succ n ih =>
      unfold F32.scanExpo
      split_ifs
      · exact le_trans (by omega) (ih (e + 1))
      · exact le_refl e

theorem F32.scanExpo_reaches (a : ℚ) (k : ℤ) (hk : F32.pow2 k ≤ a) (fuel : Nat) (e : ℤ)
    (h1 : e ≤ k) (h2 : k ≤ e + fuel) : k ≤ F32.scanExpo a fuel e := by
  induction fuel generalizing e with
  | zero =>
      have : k = e := by simp at h2; omega
      rw [this]
      exact le_refl e
  | succ n ih =>
      unfold F32.scanExpo
      by_cases hek : e = k
      · rw [hek]
        split_ifs
        · exact le_trans (by omega) (F32.le_scanExpo a n (k + 1))
        · exact le_refl k
      · have hlt : e + 1 ≤ k := by omega
        rw [if_pos (le_trans (F32.pow2_mono hlt) hk)]
        exact ih (e + 1) hlt (by push_cast at h2; omega)

theorem F32.pow2_scanExpo_le (a : ℚ) (fuel : Nat) (e : ℤ) :
    F32.scanExpo a fuel e = e ∨ F32.pow2 (F32.scanExpo a fuel e) ≤ a := by
  induction fuel generalizing e with
  | zero => exact Or.inl rfl
  | succ n ih =>
      unfold F32.scanExpo
      split_ifs with h
      · rcases ih (e + 1) with h1 | h1
        · right
          rw [h1]
          exact h
        · exact Or.inr h1
      · exact Or.inl rfl

theorem F32.floor_le_rne (x : ℚ) : ⌊x⌋ ≤ F32.rne x := by
  unfold F32.rne
  split_ifs <;> omega

/-- A number that is at least `1` is rounded to a binary32 value that is at least `1`, or
to `+inf`. -/
theorem F32.one_le_round (q : ℚ) (hq : 1 ≤ q) : F32.fin 1 ≤ F32.round q := by
  have hq0 : 0 < q := by linarith
  have habs : |q| = q := abs_of_pos hq0
  have he0 : 0 ≤ F32.expo q := by
    unfold F32.expo
    rw [habs]
    refine F32.scanExpo_reaches q 0 ?_ 254 (-126) (by norm_num) (by norm_num)
    rw [F32.pow2_eq]
    simpa using hq
  have hle : F32.pow2 (F32.expo q) ≤ q := by
    have h := F32.pow2_scanExpo_le |q| 254 (-126)
    rw [habs] at h
    rcases h with h | h
    · exfalso
      have : F32.expo q = -126 := by unfold F32.expo; rw [habs]; exact h
      omega
    · unfold F32.expo
      rw [habs]
      exact h
  have hu : 0 < F32.ulp q := F32.pow2_pos _
  have hsplit : F32.pow2 (F32.expo q) = (2 : ℚ) ^ (23 : ℕ) * F32.ulp q := by
    unfold F32.ulp
    rw [F32.pow2_eq, F32.pow2_eq, ← zpow_natCast, ← zpow_add₀ (by norm_num : (2 : ℚ) ≠ 0)]
    congr 1
    push_cast
    ring
  have hcast : ((2 ^ 23 : ℤ) : ℚ) = (2 : ℚ) ^ (23 : ℕ) := by norm_num
  have hdiv : ((2 ^ 23 : ℤ) : ℚ) ≤ q / F32.ulp q := by
    rw [le_div_iff₀ hu, hcast, ← hsplit]
    exact hle
  have hfloor : (2 ^ 23 : ℤ) ≤ ⌊q / F32.ulp q⌋ := Int.le_floor.mpr hdiv
  have hrne : (2 ^ 23 : ℤ) ≤ F32.rne (q / F32.ulp q) := le_trans hfloor (F32.floor_le_rne _)
  have hr : (1 : ℚ) ≤ (F32.rne (q / F32.ulp q) : ℚ) * F32.ulp q := by
    have h1 : ((2 ^ 23 : ℤ) : ℚ) ≤ (F32.rne (q / F32.ulp q) : ℚ) := by exact_mod_cast hrne
    have h2 : (1 : ℚ) ≤ F32.pow2 (F32.expo q) := by
      have := F32.pow2_mono he0
      rw [F32.pow2_eq 0] at this
      simpa using this
    calc (1 : ℚ) ≤ F32.pow2 (F32.expo q) := h2
      _ = (2 : ℚ) ^ (23 : ℕ) * F32.ulp q := hsplit
      _ ≤ (F32.rne (q / F32.ulp q) : ℚ) * F32.ulp q := by
          apply mul_le_mul_of_nonneg_right _ hu.le
          rw [hcast] at h1
          exact h1
  show F32.le (F32.fin 1) (F32.round q) = true
  unfold F32.round
  rw [if_neg (ne_of_gt hq0)]
  split_ifs with h
  · rfl
  · show decide ((1 : ℚ) ≤ _) = true
    exact decide_eq_true hr

theorem F32.one_le_add_one (s : F32) (h : F32.fin 1 ≤ s) : F32.fin 1 ≤ s + F32.fin 1 := by
  cases s with
  | fin a =>
      have ha : (1 : ℚ) ≤ a := of_decide_eq_true h
      show F32.fin 1 ≤ F32.round (a + 1)
      exact F32.one_le_round (a + 1) (by linarith)
  | pinf => exact h
  | ninf => exact absurd h Bool.false_ne_true
  | nan => exact absurd h Bool.false_ne_true

theorem F32.one_le_stdMax (x : F32) : F32.fin 1 ≤ stdMax (F32.fin 1) x := by
  unfold stdMax
  split_ifs with h
  · cases x with
    | fin a =>
        have ha : (1 : ℚ) < a := of_decide_eq_true h
        exact decide_eq_true ha.le
    | pinf => rfl
    | ninf => exact absurd h Bool.false_ne_true
    | nan => exact absurd h Bool.false_ne_true
  · exact decide_eq_true (le_refl (1 : ℚ))

theorem F32.ofInt_one : (Scalar.ofInt 1 : F32) = F32.fin 1 := by decide!

/-! ## `Ball::update`, one branch at a time -/

theorem Ball.update_of_left (b : Ball α) (rect : Rectangle α) (t : α)
    (h : b.x_ + b.speed_.x - b.radius_ < rect.x + t) :
    b.update rect t = (CollisionType.Left, b) := by
  unfold Ball.update
  simp only [if_pos h]

theorem Ball.update_of_right (b : Ball α) (rect : Rectangle α) (t : α)
    (hl : ¬ (b.x_ + b.speed_.x - b.radius_ < rect.x + t))
    (h : b.x_ + b.speed_.x + b.radius_ > rect.x + rect.width - t) :
    b.update rect t = (CollisionType.Right, b) := by
  unfold Ball.update
  simp only [if_neg hl, if_pos h]

theorem Ball.update_of_vertical (b : Ball α) (rect : Rectangle α) (t : α)
    (hl : ¬ (b.x_ + b.speed_.x - b.radius_ < rect.x + t))
    (hr : ¬ (b.x_ + b.speed_.x + b.radius_ > rect.x + rect.width - t))
    (h : b.y_ + b.speed_.y - b.radius_ < rect.y + t
      ∨ b.y_ + b.speed_.y + b.radius_ > rect.y + rect.height - t) :
    b.update rect t = (CollisionType.TopOrBottom, b.reverseY) := by
  unfold Ball.update
  simp only [if_neg hl, if_neg hr, if_pos h]

theorem Ball.update_of_clear (b : Ball α) (rect : Rectangle α) (t : α)
    (hl : ¬ (b.x_ + b.speed_.x - b.radius_ < rect.x + t))
    (hr : ¬ (b.x_ + b.speed_.x + b.radius_ > rect.x + rect.width - t))
    (h : ¬ (b.y_ + b.speed_.y - b.radius_ < rect.y + t
      ∨ b.y_ + b.speed_.y + b.radius_ > rect.y + rect.height - t)) :
    b.update rect t
      = (CollisionType.None, { b with x_ := b.x_ + b.speed_.x, y_ := b.y_ + b.speed_.y }) := by
  unfold Ball.update
  simp only [if_neg hl, if_neg hr, if_neg h]

/-- C1, as stated, fails in the arithmetic of the program: in the default field
`(10, 10, 780, 580)` with thickness `10`, the ball at `(100, 100)` with radius `10` and velocity
`(0.1f, 0.2f)` (the binary32 numbers nearest to `1/10` and `1/5`) satisfies the four stated
inequalities and `Ball::update` returns `None`, but the committed x is the rounded sum
`13120307/131072`, not `x + vx = 100 + 13421773/134217728`. -/
theorem ball_update_clear_move_counterexample :
    F32.round (1 / 10) = F32.fin (13421773 / 134217728)
      ∧ F32.round (1 / 5) = F32.fin (13421773 / 67108864)
      ∧ ((10 : ℚ) + 10 ≤ 100 + 13421773 / 134217728 - 10
        ∧ (100 : ℚ) + 13421773 / 134217728 + 10 ≤ 10 + 780 - 10
        ∧ (10 : ℚ) + 10 ≤ 100 + 13421773 / 67108864 - 10
        ∧ (100 : ℚ) + 13421773 / 67108864 + 10 ≤ 10 + 580 - 10)
      ∧ (Ball.update
            (⟨F32.fin 100, F32.fin 100, F32.fin 10, WHITE,
              ⟨F32.fin (13421773 / 134217728), F32.fin (13421773 / 67108864)⟩⟩ : Ball F32)
            ⟨F32.fin 10, F32.fin 10, F32.fin 780, F32.fin 580⟩ (F32.fin 10)).1
          = CollisionType.None
      ∧ (Ball.update
            (⟨F32.fin 100, F32.fin 100, F32.fin 10, WHITE,
              ⟨F32.fin (13421773 / 134217728), F32.fin (13421773 / 67108864)⟩⟩ : Ball F32)
            ⟨F32.fin 10, F32.fin 10, F32.fin 780, F32.fin 580⟩ (F32.fin 10)).2.x_
          = F32.fin (13120307 / 131072)
      ∧ (13120307 / 131072 : ℚ) ≠ 100 + 13421773 / 134217728 := by
  refine ⟨by decide!, by decide!, by norm_num, by decide!, by decide!, by norm_num⟩

/-- C1, amended: in the arithmetic the program computes in (binary32 as well as exact
arithmetic), when none of the wall tests of `Ball::update` fires on the tentative position,
`Ball::update` returns `None`, commits exactly the computed sums `x + vx` and `y + vy` as the
new position and changes nothing else (velocity, radius and colour are kept). -/
theorem ball_update_clear_move (b : Ball α) (rect : Rectangle α) (t : α)
    (hl : ¬ (b.x_ + b.speed_.x - b.radius_ < rect.x + t))
    (hr : ¬ (b.x_ + b.speed_.x + b.radius_ > rect.x + rect.width - t))
    (ht : ¬ (b.y_ + b.speed_.y - b.radius_ < rect.y + t))
    (hb : ¬ (b.y_ + b.speed_.y + b.radius_ > rect.y + rect.height - t)) :
    (b.update rect t).1 = CollisionType.None
      ∧ (b.update rect t).2.x_ = b.x_ + b.speed_.x
      ∧ (b.update rect t).2.y_ = b.y_ + b.speed_.y
      ∧ (b.update rect t).2.speed_ = b.speed_
      ∧ (b.update rect t).2.radius_ = b.radius_
      ∧ (b.update rect t).2.color_ = b.color_ := by
  have h := Ball.update_of_clear b rect t hl hr
    (by rintro (h | h)
        · exact ht h
        · exact hb h)
  rw [h]
  exact ⟨rfl, rfl, rfl, rfl, rfl, rfl⟩

/-- The scenario of C1 in binary32: field `(10, 10, 780, 580)`, thickness `10`, ball at
`(400, 300)` with radius `10` and velocity `(5, 5)` moves to `(405, 305)` and reports `None`. -/
theorem ball_update_clear_move_witness :
    (Ball.update (⟨F32.fin 400, F32.fin 300, F32.fin 10, WHITE, ⟨F32.fin 5, F32.fin 5⟩⟩ : Ball F32)
        ⟨F32.fin 10, F32.fin 10, F32.fin 780, F32.fin 580⟩ (F32.fin 10)).1 = CollisionType.None
      ∧ (Ball.update (⟨F32.fin 400, F32.fin 300, F32.fin 10, WHITE, ⟨F32.fin 5, F32.fin 5⟩⟩ : Ball F32)
        ⟨F32.fin 10, F32.fin 10, F32.fin 780, F32.fin 580⟩ (F32.fin 10)).2.x_ = F32.fin 405
      ∧ (Ball.update (⟨F32.fin 400, F32.fin 300, F32.fin 10, WHITE, ⟨F32.fin 5, F32.fin 5⟩⟩ : Ball F32)
        ⟨F32.fin 10, F32.fin 10, F32.fin 780, F32.fin 580⟩ (F32.fin 10)).2.y_ = F32.fin 305
      ∧ (Ball.update (⟨F32.fin 400, F32.fin 300, F32.fin 10, WHITE, ⟨F32.fin 5, F32.fin 5⟩⟩ : Ball F32)
        ⟨F32.fin 10, F32.fin 10, F32.fin 780, F32.fin 580⟩ (F32.fin 10)).2.speed_
          = ⟨F32.fin 5, F32.fin 5⟩ := by
  have h := ball_update_clear_move
    (⟨F32.fin 400, F32.fin 300, F32.fin 10, WHITE, ⟨F32.fin 5, F32.fin 5⟩⟩ : Ball F32)
    ⟨F32.fin 10, F32.fin 10, F32.fin 780, F32.fin 580⟩ (F32.fin 10)
    (by decide!) (by decide!) (by decide!) (by decide!)
  obtain ⟨h1, h2, h3, h4, -, -⟩ := h
  refine ⟨h1, ?_, ?_, h4⟩
  · rw [h2]; decide!
  · rw [h3]; decide!

/-- C2: when the tentative x crosses the left inner wall, whatever the tentative y is,
`Ball::update` returns `Left` and leaves the whole ball (position and both velocity components)
as it was; hence after any number `n` of repeated calls the ball is still the same and the next
call returns `Left` again.  This holds in binary32 as well as in exact arithmetic. -/
theorem ball_update_left_idempotent (b : Ball α) (rect : Rectangle α) (t : α)
    (h : b.x_ + b.speed_.x - b.radius_ < rect.x + t) :
    b.update rect t = (CollisionType.Left, b)
      ∧ ∀ n : Nat, Ball.updateN rect t n b = b
          ∧ ((Ball.updateN rect t n b).update rect t).1 = CollisionType.Left := by
  have h1 := Ball.update_of_left b rect t h
  have h2 : ∀ n : Nat, Ball.updateN rect t n b = b := by
    intro n
    induction n with
    | zero => rfl
    | succ k ih => simp only [Ball.updateN, h1]; exact ih
  refine ⟨h1, fun n => ⟨h2 n, ?_⟩⟩
  rw [h2 n, h1]

/-- A left-wall crossing that also crosses the top wall: ball at `(25, 25)`, radius `10`,
velocity `(-5, -5)` in the field `(10, 10, 780, 580)` with thickness `10`. -/
theorem ball_update_left_idempotent_witness :
    (Ball.update (⟨25, 25, 10, WHITE, ⟨-5, -5⟩⟩ : Ball ℚ) ⟨10, 10, 780, 580⟩ 10)
        = (CollisionType.Left, ⟨25, 25, 10, WHITE, ⟨-5, -5⟩⟩)
      ∧ Ball.updateN ⟨10, 10, 780, 580⟩ 10 3 (⟨25, 25, 10, WHITE, ⟨-5, -5⟩⟩ : Ball ℚ)
        = ⟨25, 25, 10, WHITE, ⟨-5, -5⟩⟩ := by
  have h := ball_update_left_idempotent (⟨25, 25, 10, WHITE, ⟨-5, -5⟩⟩ : Ball ℚ)
    ⟨10, 10, 780, 580⟩ 10 (by norm_num)
  exact ⟨h.1, (h.2 3).1⟩

theorem PlayerPaddle.player_updatePosition_y (kd ku : Bool) (p : Paddle α) (yMin yMax : α) :
    (PlayerPaddle.updatePosition kd ku p yMin yMax).y_
      = if kd = true ∧ p.y_ + p.height_ < yMax then
          (if ku = true ∧ p.y_ + p.speed_ > yMin then p.y_ + p.speed_ - p.speed_
            else p.y_ + p.speed_)
        else (if ku = true ∧ p.y_ > yMin then p.y_ - p.speed_ else p.y_) := by
  unfold PlayerPaddle.updatePosition
  cases kd <;> cases ku <;> simp only [Paddle.canMoveUp, Paddle.canMoveDown] <;>
    split_ifs <;> simp_all

theorem PlayerPaddle.player_updatePosition_rest (kd ku : Bool) (p : Paddle α) (yMin yMax : α) :
    (PlayerPaddle.updatePosition kd ku p yMin yMax).x_ = p.x_
      ∧ (PlayerPaddle.updatePosition kd ku p yMin yMax).width_ = p.width_
      ∧ (PlayerPaddle.updatePosition kd ku p yMin yMax).height_ = p.height_
      ∧ (PlayerPaddle.updatePosition kd ku p yMin yMax).color_ = p.color_
      ∧ (PlayerPaddle.updatePosition kd ku p yMin yMax).speed_ = p.speed_ := by
  unfold PlayerPaddle.updatePosition
  dsimp only
  split_ifs <;> exact ⟨rfl, rfl, rfl, rfl, rfl⟩

theorem CpuPaddle.cpu_updatePosition_y (p : Paddle α) (ballY yMin yMax : α) :
    (CpuPaddle.updatePosition p ballY yMin yMax).y_
      = if p.y_ + Scalar.half p.height_ < ballY ∧ p.y_ + p.height_ < yMax then p.y_ + p.speed_
        else if p.y_ + Scalar.half p.height_ > ballY ∧ p.y_ > yMin then p.y_ - p.speed_
        else p.y_ := by
  unfold CpuPaddle.updatePosition
  simp only [Paddle.canMoveUp, Paddle.canMoveDown, Bool.and_eq_true, decide_eq_true_eq]
  split_ifs <;> rfl

theorem CpuPaddle.cpu_updatePosition_rest (p : Paddle α) (ballY yMin yMax : α) :
    (CpuPaddle.updatePosition p ballY yMin yMax).x_ = p.x_
      ∧ (CpuPaddle.updatePosition p ballY yMin yMax).width_ = p.width_
      ∧ (CpuPaddle.updatePosition p ballY yMin yMax).height_ = p.height_
      ∧ (CpuPaddle.updatePosition p ballY yMin yMax).color_ = p.color_
      ∧ (CpuPaddle.updatePosition p ballY yMin yMax).speed_ = p.speed_ := by
  unfold CpuPaddle.updatePosition
  split_ifs <;> exact ⟨rfl, rfl, rfl, rfl, rfl⟩

/-- C9, as stated, fails in the arithmetic of the program: a CPU paddle at `y = 250` (height
`100`, centre `300`) with speed `0.1f = 13421773/134217728` and the ball at `y = 200` has its
centre below the ball and room above, and ends at the rounded difference `8188723/32768`, not
at `y - speed`. -/
theorem cpu_paddle_moves_toward_ball_counterexample :
    ((250 : ℚ) + 100 / 2 > 200 ∧ (250 : ℚ) > 20)
      ∧ (CpuPaddle.updatePosition
          (⟨F32.fin 740, F32.fin 250, F32.fin 10, F32.fin 100, WHITE,
            F32.fin (13421773 / 134217728)⟩ : Paddle F32)
          (F32.fin 200) (F32.fin 20) (F32.fin 580)).y_ = F32.fin (8188723 / 32768)
      ∧ (8188723 / 32768 : ℚ) ≠ 250 - 13421773 / 134217728 := by
  refine ⟨by norm_num, by decide!, by norm_num⟩

/-- C9, amended: in the arithmetic the program computes in (binary32 as well as exact
arithmetic; `hlt` is the asymmetry of its `<`), with every comparison and sum as the program
computes it: centre below the ball's y (`y + height / 2 > ballY`) with room above
(`y > yMin`) gives the computed difference `y' = y - speed`; centre above it
(`y + height / 2 < ballY`) with room below (`y + height < yMax`) gives the computed sum
`y' = y + speed`; in every other case `y' = y`; `x`, width, height, speed (and colour) never
change. -/
theorem cpu_paddle_moves_toward_ball (hlt : ∀ a b : α, a < b → ¬ b < a) (p : Paddle α)
    (ballY yMin yMax : α) :
    (p.y_ + Scalar.half p.height_ > ballY → p.y_ > yMin →
        (CpuPaddle.updatePosition p ballY yMin yMax).y_ = p.y_ - p.speed_)
      ∧ (p.y_ + Scalar.half p.height_ < ballY → p.y_ + p.height_ < yMax →
        (CpuPaddle.updatePosition p ballY yMin yMax).y_ = p.y_ + p.speed_)
      ∧ (¬ (p.y_ + Scalar.half p.height_ > ballY ∧ p.y_ > yMin) →
          ¬ (p.y_ + Scalar.half p.height_ < ballY ∧ p.y_ + p.height_ < yMax) →
        (CpuPaddle.updatePosition p ballY yMin yMax).y_ = p.y_)
      ∧ (CpuPaddle.updatePosition p ballY yMin yMax).x_ = p.x_
      ∧ (CpuPaddle.updatePosition p ballY yMin yMax).width_ = p.width_
      ∧ (CpuPaddle.updatePosition p ballY yMin yMax).height_ = p.height_
      ∧ (CpuPaddle.updatePosition p ballY yMin yMax).color_ = p.color_
      ∧ (CpuPaddle.updatePosition p ballY yMin yMax).speed_ = p.speed_ := by
  refine ⟨?_, ?_, ?_, CpuPaddle.cpu_updatePosition_rest p ballY yMin yMax⟩
  · intro h1 h2
    rw [CpuPaddle.cpu_updatePosition_y, if_neg (fun h => hlt _ _ h.1 h1), if_pos ⟨h1, h2⟩]
  · intro h1 h2
    rw [CpuPaddle.cpu_updatePosition_y, if_pos ⟨h1, h2⟩]
  · intro h1 h2
    rw [CpuPaddle.cpu_updatePosition_y, if_neg h2, if_neg h1]

/-- The scenario of C9 in binary32: the CPU paddle at `y = 250` (height `100`, centre `300`)
with the ball at `y = 200` and speed `7` moves up to `243`; with the ball at `y = 400` it moves
down to `257`; with the ball at `y = 300` it stays. -/
theorem cpu_paddle_moves_toward_ball_witness :
    (CpuPaddle.updatePosition
        (⟨F32.fin 740, F32.fin 250, F32.fin 10, F32.fin 100, WHITE, F32.fin 7⟩ : Paddle F32)
        (F32.fin 200) (F32.fin 20) (F32.fin 580)).y_ = F32.fin 243
      ∧ (CpuPaddle.updatePosition
        (⟨F32.fin 740, F32.fin 250, F32.fin 10, F32.fin 100, WHITE, F32.fin 7⟩ : Paddle F32)
        (F32.fin 400) (F32.fin 20) (F32.fin 580)).y_ = F32.fin 257
      ∧ (CpuPaddle.updatePosition
        (⟨F32.fin 740, F32.fin 250, F32.fin 10, F32.fin 100, WHITE, F32.fin 7⟩ : Paddle F32)
        (F32.fin 300) (F32.fin 20) (F32.fin 580)).y_ = F32.fin 250 := by
  refine ⟨?_, ?_, ?_⟩
  · rw [(cpu_paddle_moves_toward_ball F32.lt_not_gt
      (⟨F32.fin 740, F32.fin 250, F32.fin 10, F32.fin 100, WHITE, F32.fin 7⟩ : Paddle F32)
      (F32.fin 200) (F32.fin 20) (F32.fin 580)).1 (by decide!) (by decide!)]
    decide!
  · rw [(cpu_paddle_moves_toward_ball F32.lt_not_gt
      (⟨F32.fin 740, F32.fin 250, F32.fin 10, F32.fin 100, WHITE, F32.fin 7⟩ : Paddle F32)
      (F32.fin 400) (F32.fin 20) (F32.fin 580)).2.1 (by decide!) (by decide!)]
    decide!
  · exact (cpu_paddle_moves_toward_ball F32.lt_not_gt
      (⟨F32.fin 740, F32.fin 250, F32.fin 10, F32.fin 100, WHITE, F32.fin 7⟩ : Paddle F32)
      (F32.fin 300) (F32.fin 20) (F32.fin 580)).2.2.1 (by decide!) (by decide!)

/-- C10, as stated, fails: in the default field (`yMin = 20`, `yMax = 580`) a player paddle
at `y = 481` (height `100`, speed `7`) cannot move down, so with both keys held only the up
move is made and the paddle ends at `y = 474`. -/
theorem player_paddle_cancellation_counterexample :
    (PlayerPaddle.updatePosition true true (⟨50, 481, 10, 100, WHITE, 7⟩ : Paddle ℚ) 20 580).y_
        = 474
      ∧ (PlayerPaddle.updatePosition true true (⟨50, 481, 10, 100, WHITE, 7⟩ : Paddle ℚ) 20 580).y_
        ≠ (⟨50, 481, 10, 100, WHITE, 7⟩ : Paddle ℚ).y_ := by
  rw [PlayerPaddle.player_updatePosition_y]
  norm_num

/-- C10, amended: with both the up and the down input held, `updatePosition` leaves `y`
unchanged when the down move is permitted (`y + height < yMax`) and the up move is permitted
after it (`y + speed > yMin`, which holds whenever `y ≥ yMin` and `speed > 0`); when the down
move is blocked, the paddle moves up by `speed` if `y > yMin` and stays where it is otherwise.
Over exact arithmetic, as the claim says. -/
theorem player_paddle_cancellation (p : Paddle ℚ) (yMin yMax : ℚ) :
    (p.y_ + p.height_ < yMax → p.y_ + p.speed_ > yMin →
        (PlayerPaddle.updatePosition true true p yMin yMax).y_ = p.y_)
      ∧ (p.y_ + p.height_ < yMax → yMin ≤ p.y_ → 0 < p.speed_ →
        (PlayerPaddle.updatePosition true true p yMin yMax).y_ = p.y_)
      ∧ (¬ (p.y_ + p.height_ < yMax) → p.y_ > yMin →
        (PlayerPaddle.updatePosition true true p yMin yMax).y_ = p.y_ - p.speed_)
      ∧ (¬ (p.y_ + p.height_ < yMax) → ¬ (p.y_ > yMin) →
        (PlayerPaddle.updatePosition true true p yMin yMax).y_ = p.y_) := by
  have hcancel : p.y_ + p.height_ < yMax → p.y_ + p.speed_ > yMin →
      (PlayerPaddle.updatePosition true true p yMin yMax).y_ = p.y_ := by
    intro h1 h2
    rw [PlayerPaddle.player_updatePosition_y, if_pos ⟨rfl, h1⟩, if_pos ⟨rfl, h2⟩]
    ring
  refine ⟨hcancel, fun h1 h2 h3 => hcancel h1 (by linarith), ?_, ?_⟩
  · intro h1 h2
    rw [PlayerPaddle.player_updatePosition_y, if_neg (fun h => h1 h.2), if_pos ⟨rfl, h2⟩]
  · intro h1 h2
    rw [PlayerPaddle.player_updatePosition_y, if_neg (fun h => h1 h.2),
      if_neg (fun h => h2 h.2)]

/-- The player paddle at its start `y = 250` with speed `7` and both keys held stays at `250`. -/
theorem player_paddle_cancellation_witness :
    (PlayerPaddle.updatePosition true true (⟨50, 250, 10, 100, WHITE, 7⟩ : Paddle ℚ) 20 580).y_
      = 250 :=
  (player_paddle_cancellation ⟨50, 250, 10, 100, WHITE, 7⟩ 20 580).1
    (by norm_num) (by norm_num)

/-! ## The frame loop -/

theorem adjustConfig_paddleSpeed (inp : FrameInput) (c : ConfigOptions α) :
    (adjustConfig inp c).paddleSpeed
      = if inp.pressedDown = true then
          stdMax (Scalar.ofInt 1)
            ((if inp.pressedUp = true then c.paddleSpeed + Scalar.ofInt 1 else c.paddleSpeed)
              - Scalar.ofInt 1)
        else (if inp.pressedUp = true then c.paddleSpeed + Scalar.ofInt 1 else c.paddleSpeed) := by
  unfold adjustConfig
  dsimp only
  split_ifs <;> rfl

theorem adjustConfig_ballSpeed (inp : FrameInput) (c : ConfigOptions α) :
    (adjustConfig inp c).ballSpeed
      = if inp.pressedRight = true then
          (if inp.pressedLeft = true then stdMax (Scalar.ofInt 1) (c.ballSpeed - Scalar.ofInt 1)
            else c.ballSpeed) + Scalar.ofInt 1
        else (if inp.pressedLeft = true then stdMax (Scalar.ofInt 1) (c.ballSpeed - Scalar.ofInt 1)
            else c.ballSpeed) := by
  unfold adjustConfig
  dsimp only
  split_ifs <;> rfl

/-- A property of speeds that the increment and `std::max(1, ·)` keep is kept by the
adjustments of the `Config` branch. -/
theorem adjustConfig_keeps (P : α → Prop) (hinc : ∀ s, P s → P (s + Scalar.ofInt 1))
    (hmax : ∀ x, P (stdMax (Scalar.ofInt 1) x)) (inp : FrameInput) (c : ConfigOptions α)
    (hp : P c.paddleSpeed) (hb : P c.ballSpeed) :
    P (adjustConfig inp c).paddleSpeed ∧ P (adjustConfig inp c).ballSpeed := by
  rw [adjustConfig_paddleSpeed, adjustConfig_ballSpeed]
  constructor
  · split_ifs
    · exact hmax _
    · exact hmax _
    · exact hinc _ hp
    · exact hp
  · split_ifs
    · exact hinc _ (hmax _)
    · exact hinc _ hb
    · exact hmax _
    · exact hb

theorem configFrame_config (inp : FrameInput) (w : World α) :
    (configFrame inp w).config = adjustConfig inp w.config := by
  unfold configFrame
  dsimp only
  split_ifs <;> rfl

theorem playingFrame_config (check : Vector2 α → α → Rectangle α → Bool) (inp : FrameInput)
    (w : World α) : (playingFrame check inp w).1.config = w.config := by
  unfold playingFrame
  dsimp only
  split_ifs <;> rfl

theorem frame_of_config (check : Vector2 α → α → Rectangle α → Bool) (inp : FrameInput)
    (w : World α) (h : w.gameState.screenState = ScreenState.Config) :
    frame check inp w = (configFrame inp w, []) := by
  unfold frame
  rw [h]

theorem frame_of_playing (check : Vector2 α → α → Rectangle α → Bool) (inp : FrameInput)
    (w : World α) (h : w.gameState.screenState = ScreenState.Playing) :
    frame check inp w = playingFrame check inp w := by
  unfold frame
  rw [h]

theorem frame_keeps (P : α → Prop) (hinc : ∀ s, P s → P (s + Scalar.ofInt 1))
    (hmax : ∀ x, P (stdMax (Scalar.ofInt 1) x))
    (check : Vector2 α → α → Rectangle α → Bool) (inp : FrameInput) (w : World α)
    (hp : P w.config.paddleSpeed) (hb : P w.config.ballSpeed) :
    P (frame check inp w).1.config.paddleSpeed ∧ P (frame check inp w).1.config.ballSpeed := by
  cases h : w.gameState.screenState with
  | Config =>
      rw [frame_of_config check inp w h]
      show P (configFrame inp w).config.paddleSpeed ∧ P (configFrame inp w).config.ballSpeed
      rw [configFrame_config]
      exact adjustConfig_keeps P hinc hmax inp w.config hp hb
  | Playing =>
      rw [frame_of_playing check inp w h, playingFrame_config]
      exact ⟨hp, hb⟩

theorem run_keeps (P : α → Prop) (hinc : ∀ s, P s → P (s + Scalar.ofInt 1))
    (hmax : ∀ x, P (stdMax (Scalar.ofInt 1) x))
    (check : Vector2 α → α → Rectangle α → Bool) (inputs : List FrameInput) (w : World α)
    (hp : P w.config.paddleSpeed) (hb : P w.config.ballSpeed) :
    P (run check inputs w).config.paddleSpeed ∧ P (run check inputs w).config.ballSpeed := by
  induction inputs generalizing w with
  | nil => exact ⟨hp, hb⟩
  | cons i rest ih =>
      have h := frame_keeps P hinc hmax check i w hp hb
      exact ih (frame check i w).1 h.1 h.2

theorem frame_floor (check : Vector2 ℚ → ℚ → Rectangle ℚ → Bool) (inp : FrameInput)
    (w : World ℚ) (hp : 1 ≤ w.config.paddleSpeed) (hb : 1 ≤ w.config.ballSpeed) :
    1 ≤ (frame check inp w).1.config.paddleSpeed ∧ 1 ≤ (frame check inp w).1.config.ballSpeed := by
  refine frame_keeps (fun s : ℚ => 1 ≤ s) ?_ ?_ check inp w hp hb
  · intro s hs
    show (1 : ℚ) ≤ s + ((1 : ℤ) : ℚ)
    push_cast
    linarith
  · intro x
    show (1 : ℚ) ≤ stdMax ((1 : ℤ) : ℚ) x
    rw [stdMax_rat]
    push_cast
    exact le_max_left _ _

/-- C5, as stated, fails in the arithmetic of the program: in a Config-state frame with
`paddleSpeed = 2 ^ 24 = 16777216` (which is at least `1`) and UP pressed, the increment
leaves `paddleSpeed` at `16777216`, the binary32 number nearest to `16777217`, not at
`s + 1`. -/
theorem config_speed_floor_counterexample :
    (frame (fun _ _ _ => false) ⟨true, false, false, false, false, false, false, 0, 0⟩
        { (World.initial : World F32) with
          config := { (ConfigOptions.default : ConfigOptions F32) with
            paddleSpeed := F32.fin 16777216 } }).1.config.paddleSpeed = F32.fin 16777216
      ∧ (16777216 : ℚ) ≠ 16777216 + 1 := by
  refine ⟨by decide!, by norm_num⟩

/-- C5, amended, in the binary32 arithmetic of the program: from a state with
`paddleSpeed ≥ 1` and `ballSpeed ≥ 1`, after any finite sequence of frames (Config-state
frames with any combination of key-press edges, and any Playing frames between them) both
speeds are still `≥ 1`; in a Config-state frame UP turns the paddle speed `s` into the
rounded sum `s + 1` and DOWN then turns the result `s'` into `std::max(1, s' - 1)` with the
rounded difference, LEFT turns the ball speed `s` into `std::max(1, s - 1)` and RIGHT then
adds `1` to the result, rounded. -/
theorem config_speed_floor (check : Vector2 F32 → F32 → Rectangle F32 → Bool)
    (inputs : List FrameInput) (inp : FrameInput) (w : World F32)
    (hp : F32.fin 1 ≤ w.config.paddleSpeed) (hb : F32.fin 1 ≤ w.config.ballSpeed) :
    (F32.fin 1 ≤ (run check inputs w).config.paddleSpeed
        ∧ F32.fin 1 ≤ (run check inputs w).config.ballSpeed)
      ∧ (w.gameState.screenState = ScreenState.Config →
          (frame check inp w).1.config.paddleSpeed
              = (if inp.pressedDown = true then
                  stdMax (F32.fin 1)
                    ((if inp.pressedUp = true then w.config.paddleSpeed + F32.fin 1
                        else w.config.paddleSpeed) - F32.fin 1)
                else (if inp.pressedUp = true then w.config.paddleSpeed + F32.fin 1
                        else w.config.paddleSpeed))
          ∧ (frame check inp w).1.config.ballSpeed
              = (if inp.pressedRight = true then
                  (if inp.pressedLeft = true then stdMax (F32.fin 1) (w.config.ballSpeed - F32.fin 1)
                    else w.config.ballSpeed) + F32.fin 1
                else (if inp.pressedLeft = true then
                    stdMax (F32.fin 1) (w.config.ballSpeed - F32.fin 1)
                  else w.config.ballSpeed))) := by
  constructor
  · refine run_keeps (fun s : F32 => F32.fin 1 ≤ s) ?_ ?_ check inputs w hp hb
    · intro s hs
      rw [F32.ofInt_one]
      exact F32.one_le_add_one s hs
    · intro x
      rw [F32.ofInt_one]
      exact F32.one_le_stdMax x
  · intro hc
    rw [frame_of_config check inp w hc]
    show (configFrame inp w).config.paddleSpeed = _ ∧ (configFrame inp w).config.ballSpeed = _
    rw [configFrame_config, adjustConfig_paddleSpeed, adjustConfig_ballSpeed, F32.ofInt_one]
    exact ⟨rfl, rfl⟩

/-- From the initial state (speeds `7` and `5`), eleven Config-state frames with DOWN and LEFT
pressed leave both speeds at least `1`; and one such frame turns `7` into `6` and `5` into
`4`. -/
theorem config_speed_floor_witness :
    (F32.fin 1 ≤ (run (fun _ _ _ => false)
          (List.replicate 11 ⟨false, true, true, false, false, false, false, 0, 0⟩)
          (World.initial : World F32)).config.paddleSpeed
      ∧ F32.fin 1 ≤ (run (fun _ _ _ => false)
          (List.replicate 11 ⟨false, true, true, false, false, false, false, 0, 0⟩)
          (World.initial : World F32)).config.ballSpeed)
      ∧ (frame (fun _ _ _ => false) ⟨false, true, true, false, false, false, false, 0, 0⟩
          (World.initial : World F32)).1.config.paddleSpeed = F32.fin 6
      ∧ (frame (fun _ _ _ => false) ⟨false, true, true, false, false, false, false, 0, 0⟩
          (World.initial : World F32)).1.config.ballSpeed = F32.fin 4 := by
  have h := config_speed_floor (fun _ _ _ => false)
    (List.replicate 11 ⟨false, true, true, false, false, false, false, 0, 0⟩)
    ⟨false, true, true, false, false, false, false, 0, 0⟩ (World.initial : World F32)
    (by decide!) (by decide!)
  obtain ⟨h1, h2⟩ := h
  obtain ⟨h3, h4⟩ := h2 rfl
  refine ⟨h1, ?_, ?_⟩
  · rw [h3]; decide!
  · rw [h4]; decide!

theorem playingFrame_of_right (check : Vector2 α → α → Rectangle α → Bool) (inp : FrameInput)
    (w : World α)
    (h : w.ball.update w.container w.config.containerThick = (CollisionType.Right, w.ball)) :
    (playingFrame check inp w).1.gameState
        = { w.gameState with screenState := ScreenState.Config,
                             playerScore := sizeIncr w.gameState.playerScore }
      ∧ ((playingFrame check inp w).2 = ["yay"]
        ∨ (playingFrame check inp w).2 = ["yay", "paddleclick"]) := by
  unfold playingFrame
  rw [h]
  simp only [resolveCollision]
  split_ifs
  · exact ⟨rfl, Or.inr rfl⟩
  · exact ⟨rfl, Or.inl rfl⟩

/-- C6, as stated, fails at the last value of the `size_t` counter: in a Playing-state frame
with `playerScore = 2 ^ 64 - 1` and the ball at `(770, 470)` with velocity `(5, -5)` crossing
the right inner wall of the default field, the frame ends with `playerScore = 0`, not
`playerScore + 1`. -/
theorem right_wall_scoring_counterexample :
    (frame (fun _ _ _ => false) ⟨false, false, false, false, false, false, false, 0, 0⟩
        ({ config := ConfigOptions.default
           container := containerOf ConfigOptions.default
           colorIndex := 1
           playerPaddle := ⟨50, 250, 10, 100, WHITE, 7⟩
           cpuPaddle := ⟨740, 418, 10, 100, WHITE, 7⟩
           ball := ⟨770, 470, 10, WHITE, ⟨5, -5⟩⟩
           gameState := ⟨0, 2 ^ 64 - 1, ScreenState.Playing⟩ } : World ℚ)).1.gameState.playerScore
        = 0
      ∧ (frame (fun _ _ _ => false) ⟨false, false, false, false, false, false, false, 0, 0⟩
        ({ config := ConfigOptions.default
           container := containerOf ConfigOptions.default
           colorIndex := 1
           playerPaddle := ⟨50, 250, 10, 100, WHITE, 7⟩
           cpuPaddle := ⟨740, 418, 10, 100, WHITE, 7⟩
           ball := ⟨770, 470, 10, WHITE, ⟨5, -5⟩⟩
           gameState := ⟨0, 2 ^ 64 - 1, ScreenState.Playing⟩ } : World ℚ)).1.gameState.playerScore
        ≠ (2 ^ 64 - 1) + 1 := by
  have h : (frame (fun _ _ _ => false) ⟨false, false, false, false, false, false, false, 0, 0⟩
        ({ config := ConfigOptions.default
           container := containerOf ConfigOptions.default
           colorIndex := 1
           playerPaddle := ⟨50, 250, 10, 100, WHITE, 7⟩
           cpuPaddle := ⟨740, 418, 10, 100, WHITE, 7⟩
           ball := ⟨770, 470, 10, WHITE, ⟨5, -5⟩⟩
           gameState := ⟨0, 2 ^ 64 - 1, ScreenState.Playing⟩ } : World ℚ)).1.gameState.playerScore
        = 0 := by
    rw [frame_of_playing _ _ _ rfl]
    rw [(playingFrame_of_right _ _ _ (Ball.update_of_right _ _ _
      (by decide!) (by decide!))).1]
    decide
  exact ⟨h, by rw [h]; decide⟩

/-- C6, amended: in a Playing-state frame in which the ball's tentative x does not cross the
left inner wall and `x + vx + r > rect.x + rect.width - t`, `Ball::update` returns `Right`
and leaves the ball as it was, and the frame ends with `screenState = Config`, `playerScore`
incremented as a `size_t` (`(playerScore + 1) mod 2 ^ 64`, which is `playerScore + 1` unless
the counter was at its last value), `cpuScore` unchanged, the "yay" sound requested exactly
once and "gameover" not requested.  This holds in binary32 as well as in exact arithmetic,
the two tests being those the program computes. -/
theorem right_wall_scoring_frame (check : Vector2 α → α → Rectangle α → Bool) (inp : FrameInput)
    (w : World α) (hplay : w.gameState.screenState = ScreenState.Playing)
    (hl : ¬ (w.ball.x_ + w.ball.speed_.x - w.ball.radius_
              < w.container.x + w.config.containerThick))
    (hr : w.ball.x_ + w.ball.speed_.x + w.ball.radius_
              > w.container.x + w.container.width - w.config.containerThick) :
    w.ball.update w.container w.config.containerThick = (CollisionType.Right, w.ball)
      ∧ (frame check inp w).1.gameState.screenState = ScreenState.Config
      ∧ (frame check inp w).1.gameState.playerScore = (w.gameState.playerScore + 1) % 2 ^ 64
      ∧ (w.gameState.playerScore + 1 < 2 ^ 64 →
          (frame check inp w).1.gameState.playerScore = w.gameState.playerScore + 1)
      ∧ (frame check inp w).1.gameState.cpuScore = w.gameState.cpuScore
      ∧ (frame check inp w).2.count "yay" = 1
      ∧ "gameover" ∉ (frame check inp w).2 := by
  have hu := Ball.update_of_right w.ball w.container w.config.containerThick hl hr
  obtain ⟨hg, hs⟩ := playingFrame_of_right check inp w hu
  rw [frame_of_playing check inp w hplay, hg]
  refine ⟨hu, rfl, rfl, fun h => Nat.mod_eq_of_lt h, rfl, ?_, ?_⟩
  · rcases hs with hs | hs <;> rw [hs] <;> decide
  · rcases hs with hs | hs <;> rw [hs] <;> decide

/-- The scenario of C6: the state reached from the initial state by one ENTER frame and 75
further frames (no keys, no paddle overlap) has the ball one step from crossing the right
wall; the next frame ends in `Config` with `playerScore = 1`, `cpuScore = 0` and one "yay"
request. -/
theorem right_wall_scoring_frame_witness :
    (frame (fun _ _ _ => false) ⟨false, false, false, false, false, false, false, 0, 0⟩
        (run (fun _ _ _ => false)
          (⟨false, false, false, false, true, false, false, 0, 0⟩
            :: List.replicate 75 ⟨false, false, false, false, false, false, false, 0, 0⟩)
          (World.initial : World ℚ))).1.gameState = ⟨0, 1, ScreenState.Config⟩
      ∧ (frame (fun _ _ _ => false) ⟨false, false, false, false, false, false, false, 0, 0⟩
        (run (fun _ _ _ => false)
          (⟨false, false, false, false, true, false, false, 0, 0⟩
            :: List.replicate 75 ⟨false, false, false, false, false, false, false, 0, 0⟩)
          (World.initial : World ℚ))).2.count "yay" = 1 := by
  have h := right_wall_scoring_frame (fun _ _ _ => false)
    ⟨false, false, false, false, false, false, false, 0, 0⟩
    (run (fun _ _ _ => false)
      (⟨false, false, false, false, true, false, false, 0, 0⟩
        :: List.replicate 75 ⟨false, false, false, false, false, false, false, 0, 0⟩)
      (World.initial : World ℚ))
    (by decide!) (by decide!) (by decide!)
  exact ⟨by decide!, h.2.2.2.2.2.1⟩

theorem Ball.update_cases (b : Ball α) (rect : Rectangle α) (t : α) :
    b.update rect t = (CollisionType.Left, b)
      ∨ b.update rect t = (CollisionType.Right, b)
      ∨ b.update rect t = (CollisionType.TopOrBottom, b.reverseY)
      ∨ b.update rect t
          = (CollisionType.None, { b with x_ := b.x_ + b.speed_.x, y_ := b.y_ + b.speed_.y }) := by
  by_cases hl : b.x_ + b.speed_.x - b.radius_ < rect.x + t
  · exact Or.inl (Ball.update_of_left b rect t hl)
  · by_cases hr : b.x_ + b.speed_.x + b.radius_ > rect.x + rect.width - t
    · exact Or.inr (Or.inl (Ball.update_of_right b rect t hl hr))
    · by_cases hy : b.y_ + b.speed_.y - b.radius_ < rect.y + t
          ∨ b.y_ + b.speed_.y + b.radius_ > rect.y + rect.height - t
      · exact Or.inr (Or.inr (Or.inl (Ball.update_of_vertical b rect t hl hr hy)))
      · exact Or.inr (Or.inr (Or.inr (Ball.update_of_clear b rect t hl hr hy)))

theorem playingFrame_paddle_speeds (check : Vector2 α → α → Rectangle α → Bool)
    (inp : FrameInput) (w : World α) :
    (playingFrame check inp w).1.playerPaddle.speed_ = w.playerPaddle.speed_
      ∧ (playingFrame check inp w).1.cpuPaddle.speed_ = w.cpuPaddle.speed_ := by
  unfold playingFrame
  dsimp only
  split_ifs <;>
    exact ⟨(PlayerPaddle.player_updatePosition_rest _ _ _ _ _).2.2.2.2,
      (CpuPaddle.cpu_updatePosition_rest _ _ _ _).2.2.2.2⟩

/-- A `Playing` iteration either keeps the game state and changes at most the signs of the
ball's velocity components, or it is a scoring iteration: it leaves for `Config` with the
ball re-created, whose velocity is the constructor default `(10, 10)` up to a `reverseX`. -/
theorem playingFrame_ball_speed (check : Vector2 ℚ → ℚ → Rectangle ℚ → Bool) (inp : FrameInput)
    (w : World ℚ) :
    ((playingFrame check inp w).1.gameState = w.gameState
        ∧ |(playingFrame check inp w).1.ball.speed_.x| = |w.ball.speed_.x|
        ∧ |(playingFrame check inp w).1.ball.speed_.y| = |w.ball.speed_.y|)
      ∨ ((playingFrame check inp w).1.gameState.screenState = ScreenState.Config
        ∧ |(playingFrame check inp w).1.ball.speed_.x| = 10
        ∧ (playingFrame check inp w).1.ball.speed_.y = 10) := by
  unfold playingFrame
  rcases Ball.update_cases w.ball w.container w.config.containerThick with h | h | h | h <;>
    rw [h] <;> simp only [resolveCollision] <;> split_ifs
  all_goals first
    | (left; refine ⟨rfl, ?_, ?_⟩ <;> simp [Ball.reverseX, Ball.reverseY, Scalar.ofInt_rat])
    | (right; refine ⟨rfl, ?_, ?_⟩ <;>
        simp [Ball.reverseX, resetBall, Ball.new, Scalar.ofInt_rat])

theorem configFrame_of_enter (inp : FrameInput) (w : World α) (h : inp.pressedEnter = true) :
    (configFrame inp w).config = adjustConfig inp w.config
      ∧ (configFrame inp w).gameState.screenState = ScreenState.Playing
      ∧ (configFrame inp w).ball.speed_
          = ⟨(adjustConfig inp w.config).ballSpeed, (adjustConfig inp w.config).ballSpeed⟩
      ∧ (configFrame inp w).playerPaddle.speed_ = (adjustConfig inp w.config).paddleSpeed
      ∧ (configFrame inp w).cpuPaddle.speed_ = (adjustConfig inp w.config).paddleSpeed := by
  unfold configFrame
  dsimp only
  rw [if_pos h]
  exact ⟨rfl, rfl, rfl, rfl, rfl⟩

theorem configFrame_no_enter (inp : FrameInput) (w : World α) (h : inp.pressedEnter = false) :
    (configFrame inp w).gameState = w.gameState := by
  unfold configFrame
  simp [h]

/-- What every iteration of the main loop preserves: both configured speeds are at least `1`,
and in `Playing` the ball's velocity components have the magnitude `config.ballSpeed` and
both paddles have the speed `config.paddleSpeed`. -/
theorem frame_preserves_snapshot (check : Vector2 ℚ → ℚ → Rectangle ℚ → Bool) (inp : FrameInput)
    (w : World ℚ)
    (hp : 1 ≤ w.config.paddleSpeed) (hb : 1 ≤ w.config.ballSpeed)
    (hw : w.gameState.screenState = ScreenState.Playing →
      |w.ball.speed_.x| = w.config.ballSpeed ∧ |w.ball.speed_.y| = w.config.ballSpeed
        ∧ w.playerPaddle.speed_ = w.config.paddleSpeed
        ∧ w.cpuPaddle.speed_ = w.config.paddleSpeed) :
    (frame check inp w).1.gameState.screenState = ScreenState.Playing →
      |(frame check inp w).1.ball.speed_.x| = (frame check inp w).1.config.ballSpeed
        ∧ |(frame check inp w).1.ball.speed_.y| = (frame check inp w).1.config.ballSpeed
        ∧ (frame check inp w).1.playerPaddle.speed_ = (frame check inp w).1.config.paddleSpeed
        ∧ (frame check inp w).1.cpuPaddle.speed_ = (frame check inp w).1.config.paddleSpeed := by
  cases h : w.gameState.screenState with
  | Config =>
      rw [frame_of_config check inp w h]
      show (configFrame inp w).gameState.screenState = ScreenState.Playing → _
      intro hplay
      cases he : inp.pressedEnter with
      | false =>
          rw [configFrame_no_enter inp w he, h] at hplay
          exact absurd hplay (by decide)
      | true =>
          obtain ⟨h1, -, h3, h4, h5⟩ := configFrame_of_enter inp w he
          have hpos : 1 ≤ (adjustConfig inp w.config).ballSpeed := by
            have hf := frame_floor check inp w hp hb
            rw [frame_of_config check inp w h] at hf
            have hc := configFrame_config inp w
            rw [← hc]
            exact hf.2
          show |(configFrame inp w).ball.speed_.x| = (configFrame inp w).config.ballSpeed
            ∧ |(configFrame inp w).ball.speed_.y| = (configFrame inp w).config.ballSpeed
            ∧ (configFrame inp w).playerPaddle.speed_ = (configFrame inp w).config.paddleSpeed
            ∧ (configFrame inp w).cpuPaddle.speed_ = (configFrame inp w).config.paddleSpeed
          rw [h1, h3, h4, h5]
          have habs : |(adjustConfig inp w.config).ballSpeed|
              = (adjustConfig inp w.config).ballSpeed := abs_of_nonneg (by linarith)
          exact ⟨habs, habs, rfl, rfl⟩
  | Playing =>
      rw [frame_of_playing check inp w h, playingFrame_config]
      intro hplay
      obtain ⟨hx, hy, hpp, hcp⟩ := hw h
      obtain ⟨hps, hcs⟩ := playingFrame_paddle_speeds check inp w
      rcases playingFrame_ball_speed check inp w with ⟨-, h1, h2⟩ | ⟨h1, -, -⟩
      · exact ⟨h1.trans hx, h2.trans hy, hps.trans hpp, hcs.trans hcp⟩
      · rw [h1] at hplay
        exact absurd hplay (by decide)

theorem run_preserves_snapshot (check : Vector2 ℚ → ℚ → Rectangle ℚ → Bool)
    (inputs : List FrameInput) (w : World ℚ)
    (hp : 1 ≤ w.config.paddleSpeed) (hb : 1 ≤ w.config.ballSpeed)
    (hw : w.gameState.screenState = ScreenState.Playing →
      |w.ball.speed_.x| = w.config.ballSpeed ∧ |w.ball.speed_.y| = w.config.ballSpeed
        ∧ w.playerPaddle.speed_ = w.config.paddleSpeed
        ∧ w.cpuPaddle.speed_ = w.config.paddleSpeed) :
    (run check inputs w).gameState.screenState = ScreenState.Playing →
      |(run check inputs w).ball.speed_.x| = (run check inputs w).config.ballSpeed
        ∧ |(run check inputs w).ball.speed_.y| = (run check inputs w).config.ballSpeed
        ∧ (run check inputs w).playerPaddle.speed_ = (run check inputs w).config.paddleSpeed
        ∧ (run check inputs w).cpuPaddle.speed_ = (run check inputs w).config.paddleSpeed := by
  induction inputs generalizing w with
  | nil => exact hw
  | cons i rest ih =>
      have hf := frame_floor check i w hp hb
      exact ih (frame check i w).1 hf.1 hf.2 (frame_preserves_snapshot check i w hp hb hw)

/-- C7, as stated, fails in its last clause: the state reached from the initial state by one
ENTER frame and 75 further frames (no keys, no paddle overlap) is `Playing` with
`ballSpeed = 5` and ball velocity `(5, -5)`, the ball being one step from the right wall; the
next frame is a Playing-state frame and leaves the ball with velocity `(10, 10)`, which is
not a change of signs. -/
theorem speed_snapshot_counterexample :
    (run (fun _ _ _ => false)
        (⟨false, false, false, false, true, false, false, 0, 0⟩
          :: List.replicate 75 ⟨false, false, false, false, false, false, false, 0, 0⟩)
        (World.initial : World ℚ)).gameState.screenState = ScreenState.Playing
      ∧ (run (fun _ _ _ => false)
        (⟨false, false, false, false, true, false, false, 0, 0⟩
          :: List.replicate 75 ⟨false, false, false, false, false, false, false, 0, 0⟩)
        (World.initial : World ℚ)).config.ballSpeed = 5
      ∧ (run (fun _ _ _ => false)
        (⟨false, false, false, false, true, false, false, 0, 0⟩
          :: List.replicate 75 ⟨false, false, false, false, false, false, false, 0, 0⟩)
        (World.initial : World ℚ)).ball.speed_ = ⟨5, -5⟩
      ∧ (frame (fun _ _ _ => false) ⟨false, false, false, false, false, false, false, 0, 0⟩
          (run (fun _ _ _ => false)
            (⟨false, false, false, false, true, false, false, 0, 0⟩
              :: List.replicate 75 ⟨false, false, false, false, false, false, false, 0, 0⟩)
            (World.initial : World ℚ))).1.ball.speed_ = ⟨10, 10⟩
      ∧ ¬ (|(frame (fun _ _ _ => false) ⟨false, false, false, false, false, false, false, 0, 0⟩
          (run (fun _ _ _ => false)
            (⟨false, false, false, false, true, false, false, 0, 0⟩
              :: List.replicate 75 ⟨false, false, false, false, false, false, false, 0, 0⟩)
            (World.initial : World ℚ))).1.ball.speed_.x|
          = |(run (fun _ _ _ => false)
            (⟨false, false, false, false, true, false, false, 0, 0⟩
              :: List.replicate 75 ⟨false, false, false, false, false, false, false, 0, 0⟩)
            (World.initial : World ℚ)).ball.speed_.x|) := by
  have h3 : (run (fun _ _ _ => false)
        (⟨false, false, false, false, true, false, false, 0, 0⟩
          :: List.replicate 75 ⟨false, false, false, false, false, false, false, 0, 0⟩)
        (World.initial : World ℚ)).ball.speed_ = ⟨5, -5⟩ := by decide!
  have h4 : (frame (fun _ _ _ => false) ⟨false, false, false, false, false, false, false, 0, 0⟩
          (run (fun _ _ _ => false)
            (⟨false, false, false, false, true, false, false, 0, 0⟩
              :: List.replicate 75 ⟨false, false, false, false, false, false, false, 0, 0⟩)
            (World.initial : World ℚ))).1.ball.speed_ = ⟨10, 10⟩ := by decide!
  refine ⟨by decide!, by decide!, h3, h4, ?_⟩
  rw [h3, h4]
  norm_num

/-- C7, amended: in every state `w` reachable from the initial state by any sequence of
frames (any inputs, any overlap predicate), if `screenState` is `Playing` then
`|vx| = |vy| = config.ballSpeed` and both paddles' speeds equal `config.paddleSpeed`; a
Config-state frame with ENTER ends in `Playing` with the ball's velocity and the paddles'
speeds set to the configuration values as adjusted in that frame; a Playing-state frame leaves
the configuration and the paddles' speeds unchanged, and if it ends in `Playing` it changes
at most the signs of `vx` and `vy`, while a scoring frame (which ends in `Config`) leaves the
re-created ball with `|vx| = 10` and `vy = 10`. -/
theorem speed_snapshot_invariant (check : Vector2 ℚ → ℚ → Rectangle ℚ → Bool)
    (inputs : List FrameInput) (inp : FrameInput) (w : World ℚ)
    (hw : w = run check inputs World.initial) :
    (w.gameState.screenState = ScreenState.Playing →
        |w.ball.speed_.x| = w.config.ballSpeed ∧ |w.ball.speed_.y| = w.config.ballSpeed
          ∧ w.playerPaddle.speed_ = w.config.paddleSpeed
          ∧ w.cpuPaddle.speed_ = w.config.paddleSpeed)
      ∧ (w.gameState.screenState = ScreenState.Config → inp.pressedEnter = true →
        (frame check inp w).1.config = adjustConfig inp w.config
          ∧ (frame check inp w).1.gameState.screenState = ScreenState.Playing
          ∧ (frame check inp w).1.ball.speed_
              = ⟨(frame check inp w).1.config.ballSpeed, (frame check inp w).1.config.ballSpeed⟩
          ∧ (frame check inp w).1.playerPaddle.speed_ = (frame check inp w).1.config.paddleSpeed
          ∧ (frame check inp w).1.cpuPaddle.speed_ = (frame check inp w).1.config.paddleSpeed)
      ∧ (w.gameState.screenState = ScreenState.Playing →
        (frame check inp w).1.config = w.config
          ∧ (frame check inp w).1.playerPaddle.speed_ = w.playerPaddle.speed_
          ∧ (frame check inp w).1.cpuPaddle.speed_ = w.cpuPaddle.speed_
          ∧ ((frame check inp w).1.gameState.screenState = ScreenState.Playing →
              |(frame check inp w).1.ball.speed_.x| = |w.ball.speed_.x|
                ∧ |(frame check inp w).1.ball.speed_.y| = |w.ball.speed_.y|)
          ∧ ((frame check inp w).1.gameState.screenState = ScreenState.Config →
              |(frame check inp w).1.ball.speed_.x| = 10
                ∧ (frame check inp w).1.ball.speed_.y = 10)) := by
  refine ⟨?_, ?_, ?_⟩
  · rw [hw]
    refine run_preserves_snapshot check inputs World.initial ?_ ?_ ?_
    · norm_num [World.initial, ConfigOptions.default, Scalar.ofInt_rat]
    · norm_num [World.initial, ConfigOptions.default, Scalar.ofInt_rat]
    · intro h
      exact absurd h (by decide)
  · intro hc he
    rw [frame_of_config check inp w hc]
    obtain ⟨h1, h2, h3, h4, h5⟩ := configFrame_of_enter inp w he
    show (configFrame inp w).config = adjustConfig inp w.config
      ∧ (configFrame inp w).gameState.screenState = ScreenState.Playing
      ∧ (configFrame inp w).ball.speed_
          = ⟨(configFrame inp w).config.ballSpeed, (configFrame inp w).config.ballSpeed⟩
      ∧ (configFrame inp w).playerPaddle.speed_ = (configFrame inp w).config.paddleSpeed
      ∧ (configFrame inp w).cpuPaddle.speed_ = (configFrame inp w).config.paddleSpeed
    rw [h1]
    exact ⟨rfl, h2, h3, h4, h5⟩
  · intro hp
    rw [frame_of_playing check inp w hp]
    obtain ⟨hps, hcs⟩ := playingFrame_paddle_speeds check inp w
    refine ⟨playingFrame_config check inp w, hps, hcs, ?_, ?_⟩
    · intro h
      rcases playingFrame_ball_speed check inp w with ⟨-, h1, h2⟩ | ⟨h1, -, -⟩
      · exact ⟨h1, h2⟩
      · rw [h1] at h
        exact absurd h (by decide)
    · intro h
      rcases playingFrame_ball_speed check inp w with ⟨h1, -, -⟩ | ⟨-, h1, h2⟩
      · rw [h1, hp] at h
        exact absurd h (by decide)
      · exact ⟨h1, h2⟩

/-- One frame with RIGHT and ENTER pressed from the initial state: the game is `Playing`, the
configured ball speed is `6` and the ball's velocity components have that magnitude. -/
theorem speed_snapshot_invariant_witness :
    (run (fun _ _ _ => false) [⟨false, false, false, true, true, false, false, 0, 0⟩]
        (World.initial : World ℚ)).gameState.screenState = ScreenState.Playing
      ∧ (run (fun _ _ _ => false) [⟨false, false, false, true, true, false, false, 0, 0⟩]
        (World.initial : World ℚ)).config.ballSpeed = 6
      ∧ |(run (fun _ _ _ => false) [⟨false, false, false, true, true, false, false, 0, 0⟩]
          (World.initial : World ℚ)).ball.speed_.x|
        = (run (fun _ _ _ => false) [⟨false, false, false, true, true, false, false, 0, 0⟩]
          (World.initial : World ℚ)).config.ballSpeed :=
  ⟨by decide!, by decide!,
    ((speed_snapshot_invariant (fun _ _ _ => false)
      [⟨false, false, false, true, true, false, false, 0, 0⟩]
      ⟨false, false, false, false, false, false, false, 0, 0⟩ _ rfl).1 (by decide!)).1⟩

end Theorems

end Pong
